import Mathlib

/-!
Verification of the opendem pipeline (src/opendem/core.py) against its
natural-language specification.

The embedding is shallow: per-pixel numeric code becomes functions on the
rationals, the retry loop becomes a structurally recursive function
parameterized by the outcome of each warp attempt, YAML mappings become
association lists, Python string containment and case-insensitive suffix
tests become executable functions on character lists, and fallible steps
return an Except value classified by raise site.
-/

/-! ## Shared Python-semantics helpers -/

/-- Python int() applied to a rational: truncation toward zero. -/
def pyInt (q : ℚ) : ℤ := if 0 ≤ q then ⌊q⌋ else ⌈q⌉

/-- Substring containment on character lists, the semantics of the Python
test a in b on strings. -/
def hasSubstring (needle : List Char) : List Char → Bool
  | [] => needle.isEmpty
  | c :: rest => needle.isPrefixOf (c :: rest) || hasSubstring needle rest

/-- Python s.lower().endswith(suffix) on an ASCII path string. -/
def pyLowerEndsWith (s : String) (suffix : List Char) : Bool :=
  suffix.isSuffixOf (s.toList.map Char.toLower)

/-- Errors surfaced by the pipeline, classified by raise site.
keyError is the Python KeyError from a missing config field (the spec
calls this class ConfigurationError); typeError is the Python TypeError
from a call with an unexpected keyword argument; maxRetriesExceeded is
the re-raise at the exhausted-retries site of the acquisition loop (the
spec calls it MaxRetriesExceeded); propagated is the immediate re-raise
of a non-transient warp error. -/
inductive PyErr
  | keyError (field : String)
  | typeError (msg : String)
  | maxRetriesExceeded (msg : String)
  | propagated (msg : String)
  deriving DecidableEq, Repr

/-- YAML mapping with rational values, as an association list. -/
abbrev Dict : Type := List (String × ℚ)

/-- Python key lookup d[k] combined with the membership test k in d:
some value when the key is present, none otherwise. -/
def lookupKey (d : Dict) (k : String) : Option ℚ :=
  (List.find? (fun p => p.1 == k) d).map (fun p => p.2)

/-- YAML mapping with string values, as an association list. -/
abbrev StrDict : Type := List (String × String)

/-- Key lookup in a string-valued mapping. -/
def lookupStr (d : StrDict) (k : String) : Option String :=
  (List.find? (fun p => p.1 == k) d).map (fun p => p.2)

/-! ## Elevation Decoder (core.py line 131) -/

/-- core.py line 131: per-pixel Terrarium decode,
elevation = (r * 256.0 + g + b / 256.0) - 32768.0. -/
def decodeElevation (r g b : ℚ) : ℚ := (r * 256 + g + b / 256) - 32768

/-- Modelled from the spec (section 8): the decode formula as the spec
states it, elevation = R*256 + G + B/256 - 32768. -/
def decodeSpecFormula (r g b : ℚ) : ℚ := r * 256 + g + b / 256 - 32768

/-! ## Retry-Governed Acquisition (core.py lines 91-122) -/

/-- Outcome of one gdal.Warp attempt: success, or a RuntimeError whose
message drives the retry classification. -/
inductive WarpOutcome
  | ok
  | err (msg : String)

/-- core.py line 112: the transient-network classification of an error
message, "Could not resolve host" in str(e) or "IReadBlock failed" in str(e). -/
def isTransient (msg : String) : Bool :=
  hasSubstring "Could not resolve host".toList msg.toList ||
  hasSubstring "IReadBlock failed".toList msg.toList

/-- Observable result of the acquisition loop: how many warp attempts were
made, how many 10-second delays were slept, and the final outcome. -/
structure AcqResult where
  attemptsMade : Nat
  delays : Nat
  outcome : Except PyErr Unit
  deriving Repr

/-- core.py lines 95-122: the body of the while loop of OpenDEM.run,
parameterized by the outcome of each warp attempt (indexed by the value of
attempt at the time of the call). The fuel argument only bounds the
recursion; every iteration of the source loop either exits or increments
attempt, so fuel = maxRetries - attempt keeps it faithful. -/
def acquireGo (outcomes : Nat → WarpOutcome) (maxRetries attempt attemptsMade delays : Nat) :
    Nat → AcqResult
  | 0 => ⟨attemptsMade, delays, Except.ok ()⟩
  | fuel + 1 =>
    if attempt < maxRetries then
      match outcomes attempt with
      | WarpOutcome.ok => ⟨attemptsMade + 1, delays, Except.ok ()⟩
      | WarpOutcome.err msg =>
        if isTransient msg then
          if attempt + 1 < maxRetries then
            acquireGo outcomes maxRetries (attempt + 1) (attemptsMade + 1) (delays + 1) fuel
          else ⟨attemptsMade + 1, delays, Except.error (PyErr.maxRetriesExceeded msg)⟩
        else ⟨attemptsMade + 1, delays, Except.error (PyErr.propagated msg)⟩
    else ⟨attemptsMade, delays, Except.ok ()⟩

/-- core.py lines 91-93: max_retries = 5, attempt = 0, then the loop. -/
def acquire (outcomes : Nat → WarpOutcome) : AcqResult :=
  acquireGo outcomes 5 0 0 0 5

/-! ## Mask Evaluator (core.py lines 215-231) -/

/-- core.py lines 220-221: the min threshold conjunct of the boolean
condition, applied only when the key min is present in the mask mapping. -/
def minCond (mask_cfg : Dict) (v : ℚ) : Bool :=
  match lookupKey mask_cfg "min" with
  | some m => decide (m ≤ v)
  | none => true

/-- core.py lines 222-223: the max threshold conjunct of the boolean
condition, applied only when the key max is present in the mask mapping. -/
def maxCond (mask_cfg : Dict) (v : ℚ) : Bool :=
  match lookupKey mask_cfg "max" with
  | some m => decide (v ≤ m)
  | none => true

/-- core.py lines 219-226: per-pixel mask evaluation,
np.where(condition AND (data != nodata_val), 1, 0) with nodata_val = -9999,
cast to uint8. -/
def maskEvalPixel (mask_cfg : Dict) (v : ℚ) : Nat :=
  if (minCond mask_cfg v && maxCond mask_cfg v) && decide (v ≠ -9999) then 1 else 0

/-- core.py line 216: Python truthiness of the mask config value, the
branch test if mask_cfg; None and the empty mapping are both falsy. -/
def truthy (mask_cfg : Option Dict) : Bool :=
  match mask_cfg with
  | none => false
  | some l => !(List.isEmpty l)

/-! ## Output Exporter (core.py lines 141-153, 233-241) -/

/-- GDAL pixel data types appearing in core.py. -/
inductive GDALDataType
  | GDT_Byte
  | GDT_Float32
  deriving DecidableEq, Repr

/-- The export action selected by _execute_process: route to
_save_as_vector, route to _save_raster with a pixel type and nodata value,
or signal an error (a constructor the source never produces in this
branch). -/
inductive ExportAction
  | vectorExport
  | rasterExport (dtype : GDALDataType) (nodata : ℤ)
  | processingError
  deriving DecidableEq, Repr

/-- core.py lines 227, 231 and 233-241: the output branch decision of
_execute_process. The test is output_name.lower().endswith at line 234;
there is no mask check before the vector branch. The raster branch
carries the dtype of line 240 and the current_nodata of lines 227/231. -/
def exportBranch (output_name : String) (mask_cfg : Option Dict) : ExportAction :=
  if pyLowerEndsWith output_name ".gpkg".toList then
    ExportAction.vectorExport
  else
    ExportAction.rasterExport
      (if truthy mask_cfg then GDALDataType.GDT_Byte else GDALDataType.GDT_Float32)
      (if truthy mask_cfg then 0 else -9999)

/-- core.py line 141: the parameter names of _save_raster. -/
def save_raster_params : List String := ["self", "data", "source_ds", "path", "nodata"]

/-- core.py line 241: the keyword arguments at the raster-export call site
of _execute_process. -/
def raster_call_kwargs : List String := ["nodata", "dtype"]

/-- core.py line 143: the pixel data type _save_raster always passes to
driver.Create, with no override parameter. -/
def save_raster_pixel_type : GDALDataType := GDALDataType.GDT_Float32

/-- core.py line 241 under Python call semantics: a keyword argument that
is absent from the parameter list of _save_raster raises TypeError before
anything is written; otherwise the raster would be created with the fixed
pixel type of line 143. -/
def rasterExportCall (_mask_cfg : Option Dict) : Except PyErr GDALDataType :=
  if raster_call_kwargs.all (fun k => save_raster_params.contains k) then
    Except.ok save_raster_pixel_type
  else
    Except.error (PyErr.typeError "unexpected keyword argument dtype")

/-! ## Progress Relay (core.py lines 71-85) -/

/-- Observable result of one progress_callback invocation: the computed
whole percent, the value of the tracking attribute after the call, whether
a log line was emitted, and the returned continuation signal. -/
structure RelayResult where
  percent : ℤ
  lastAfter : ℤ
  logged : Bool
  ret : ℤ
  deriving DecidableEq, Repr

/-- core.py lines 71-85: one invocation of progress_callback. The state
argument is the _last_gdal_p attribute, none when it does not yet exist;
lines 75-76 set it to -1 in that case before the comparison at line 79.
A log is emitted only inside the increment branch and only when the
percent is a multiple of 5 (line 82); the return value is always 1. -/
def progress_callback (lastBefore : Option ℤ) (complete : ℚ) : RelayResult :=
  if lastBefore.getD (-1) < pyInt (complete * 100) then
    { percent := pyInt (complete * 100), lastAfter := pyInt (complete * 100),
      logged := pyInt (complete * 100) % 5 == 0, ret := 1 }
  else
    { percent := pyInt (complete * 100), lastAfter := lastBefore.getD (-1),
      logged := false, ret := 1 }

/-- A sequence of relay invocations threading the tracking attribute, as
the warp and polygon-extraction callbacks do within one pipeline run. -/
def relayTrace (lastBefore : Option ℤ) : List ℚ → List RelayResult
  | [] => []
  | c :: cs =>
    progress_callback lastBefore c ::
      relayTrace (some (progress_callback lastBefore c).lastAfter) cs

/-- The whole percents of a sequence of completion fractions. -/
def percents (calls : List ℚ) : List ℤ := calls.map (fun c => pyInt (c * 100))

/-- The percents the relay logs over a run that starts with the tracking
attribute absent. -/
def loggedPercents (calls : List ℚ) : List ℤ :=
  (relayTrace none calls).filterMap (fun r => if r.logged then some r.percent else none)

/-! ## Source Descriptor Builder (core.py lines 44-69) -/

/-- The descriptor artifact written by _generate_vrt: the fixed global
Web-Mercator pyramid parameters plus the configured source URL. -/
structure VrtArtifact where
  serverUrl : String
  tileLevel : Nat
  blockSizeX : Nat
  blockSizeY : Nat
  bandsCount : Nat
  deriving DecidableEq, Repr

/-- core.py lines 44-69: _generate_vrt. The template at lines 49-66 reads
config with a bracket lookup of source, so a missing source raises
KeyError before the artifact file is opened at line 67; on success the
artifact is written with the fixed pyramid constants. -/
def generate_vrt (config : StrDict) : Except PyErr VrtArtifact :=
  match lookupStr config "source" with
  | none => Except.error (PyErr.keyError "source")
  | some url =>
    Except.ok { serverUrl := url, tileLevel := 15, blockSizeX := 256,
                blockSizeY := 256, bandsCount := 3 }

/-! ## Warp argument construction (core.py lines 99-108) -/

/-- The arguments OpenDEM.run passes to gdal.Warp. -/
structure WarpArgs where
  outputBounds : List ℚ
  outputBoundsSRS : String
  xRes : ℚ
  yRes : ℚ
  dstSRS : String
  deriving DecidableEq, Repr

/-- core.py lines 99-108: construction of the gdal.Warp arguments from the
configuration by bracket lookup, with no validation of bounds or
resolution anywhere in __init__ (lines 12-25) or run; the only failure the
pipeline itself can raise here is the KeyError of a missing field. -/
def buildWarpArgs (bounds : Option (List ℚ)) (resolution : Option ℚ) : Except PyErr WarpArgs :=
  match bounds with
  | none => Except.error (PyErr.keyError "bounds")
  | some b =>
    match resolution with
    | none => Except.error (PyErr.keyError "resolution")
    | some r =>
      Except.ok { outputBounds := b, outputBoundsSRS := "EPSG:4326",
                  xRes := r, yRes := r, dstSRS := "EPSG:3857" }

/-! ## Helper lemmas -/

/-- The relay always returns the affirmative continuation signal. -/
theorem pc_ret (l : Option ℤ) (c : ℚ) : (progress_callback l c).ret = 1 := by
  unfold progress_callback
  split <;> rfl

/-- The relay records the whole percent of the invocation. -/
theorem pc_percent (l : Option ℤ) (c : ℚ) :
    (progress_callback l c).percent = pyInt (c * 100) := by
  unfold progress_callback
  split <;> rfl

/-- After a call, the tracking attribute holds the maximum of its previous
value (with -1 for the lazily initialized case) and the new percent. -/
theorem pc_lastAfter (l : Option ℤ) (c : ℚ) :
    (progress_callback l c).lastAfter = max (l.getD (-1)) (pyInt (c * 100)) := by
  unfold progress_callback
  split
  · rename_i h
    simp [max_eq_right (le_of_lt h)]
  · rename_i h
    simp [max_eq_left (not_lt.mp h)]

/-- A call logs exactly when the percent strictly exceeds the stored value
and is a multiple of 5. -/
theorem pc_logged (l : Option ℤ) (c : ℚ) :
    (progress_callback l c).logged =
      (decide (l.getD (-1) < pyInt (c * 100)) && (pyInt (c * 100) % 5 == 0)) := by
  unfold progress_callback
  split
  · rename_i h
    simp [h]
  · rename_i h
    simp [h]

/-- Starting with the attribute absent is the same as starting at -1. -/
theorem relayTrace_init (l : Option ℤ) (calls : List ℚ) :
    relayTrace l calls = relayTrace (some (l.getD (-1))) calls := by
  cases l with
  | some x => rfl
  | none =>
    cases calls with
    | nil => rfl
    | cons c cs => rfl

/-- Splitting a run of relay invocations: the second part starts from the
running maximum of the first part. -/
theorem relayTrace_append (pre : List ℚ) : ∀ (l : Option ℤ) (rest : List ℚ),
    relayTrace l (pre ++ rest) =
      relayTrace l pre ++
        relayTrace (some ((percents pre).foldl max (l.getD (-1)))) rest := by
  induction pre with
  | nil =>
    intro l rest
    simp only [List.nil_append, relayTrace, percents, List.map_nil, List.foldl_nil]
    exact relayTrace_init l rest
  | cons c cs ih =>
    intro l rest
    simp only [List.cons_append, relayTrace, List.append_eq]
    rw [ih]
    simp only [Option.getD_some, percents, List.map_cons, List.foldl_cons, pc_lastAfter]

/-- A left fold of max is below a bound exactly when the seed and every
element are. -/
theorem foldl_max_lt_iff (l : List ℤ) : ∀ a x : ℤ,
    l.foldl max a < x ↔ a < x ∧ ∀ q ∈ l, q < x := by
  induction l with
  | nil =>
    intro a x
    simp
  | cons b t ih =>
    intro a x
    simp only [List.foldl_cons, ih, max_lt_iff, List.mem_cons]
    constructor
    · rintro ⟨⟨h1, h2⟩, h3⟩
      refine ⟨h1, ?_⟩
      rintro q (rfl | hq)
      · exact h2
      · exact h3 q hq
    · rintro ⟨h1, h2⟩
      exact ⟨⟨h1, h2 b (Or.inl rfl)⟩, fun q hq => h2 q (Or.inr hq)⟩

/-- Truncation of a nonnegative rational is nonnegative. -/
theorem pyInt_nonneg (q : ℚ) (h : 0 ≤ q) : 0 ≤ pyInt q := by
  unfold pyInt
  rw [if_pos h]
  exact Int.floor_nonneg.mpr h

/-- Truncation never exceeds an integer upper bound of the rational. -/
theorem pyInt_le_of_le (q : ℚ) (a : ℤ) (h : q ≤ (a : ℚ)) : pyInt q ≤ a := by
  unfold pyInt
  split
  · calc ⌊q⌋ ≤ ⌊(a : ℚ)⌋ := Int.floor_le_floor h
    _ = a := Int.floor_intCast a
  · exact Int.ceil_le.mpr h

/-- Once the stored value is at least 100 and every remaining completion
fraction is at most 1, no remaining invocation logs. -/
theorem relay_no_log_after (calls : List ℚ) : ∀ l : ℤ, 100 ≤ l →
    (∀ x ∈ calls, x ≤ 1) →
    ∀ r ∈ relayTrace (some l) calls, r.logged = false := by
  induction calls with
  | nil =>
    intro l _ _ r hr
    simp [relayTrace] at hr
  | cons c cs ih =>
    intro l hl hle r hr
    have hp : pyInt (c * 100) ≤ 100 := by
      apply pyInt_le_of_le
      have hc1 := hle c (List.mem_cons_self c cs)
      push_cast
      linarith
    simp only [relayTrace, List.mem_cons] at hr
    rcases hr with rfl | hr
    · rw [pc_logged]
      simp only [Option.getD_some]
      have hnlt : ¬ (l < pyInt (c * 100)) := by omega
      simp [hnlt]
    · refine ih _ ?_ ?_ r hr
      · rw [pc_lastAfter]
        simp only [Option.getD_some]
        exact le_trans hl (le_max_left _ _)
      · intro x hx
        exact hle x (List.mem_cons_of_mem c hx)

/-- The logged percents of a run starting at stored value l are strictly
increasing and all strictly above l. -/
theorem relay_logged_sorted (calls : List ℚ) : ∀ l : ℤ,
    List.Pairwise (fun a b => a < b)
      ((relayTrace (some l) calls).filterMap
        (fun r => if r.logged then some r.percent else none)) ∧
    ∀ x ∈ (relayTrace (some l) calls).filterMap
        (fun r => if r.logged then some r.percent else none), l < x := by
  induction calls with
  | nil =>
    intro l
    simp [relayTrace]
  | cons c cs ih =>
    intro l
    obtain ⟨ihp, ihgt⟩ := ih (progress_callback (some l) c).lastAfter
    have hla : l ≤ (progress_callback (some l) c).lastAfter := by
      rw [pc_lastAfter, Option.getD_some]
      exact le_max_left _ _
    by_cases hlog : (progress_callback (some l) c).logged = true
    · have hfa : (fun r => if r.logged then some r.percent else none)
          (progress_callback (some l) c) = some (progress_callback (some l) c).percent := by
        simp [hlog]
      have hlt : l < pyInt (c * 100) := by
        have hl2 := pc_logged (some l) c
        rw [hlog] at hl2
        have hb := (Bool.and_eq_true _ _).mp hl2.symm
        have := of_decide_eq_true hb.1
        simpa using this
      have hper : (progress_callback (some l) c).percent = pyInt (c * 100) := pc_percent _ _
      have hple : (progress_callback (some l) c).percent ≤
          (progress_callback (some l) c).lastAfter := by
        rw [pc_lastAfter, Option.getD_some, hper]
        exact le_max_right _ _
      simp only [relayTrace, List.filterMap_cons, hfa]
      constructor
      · refine List.Pairwise.cons ?_ ihp
        intro x hx
        exact lt_of_le_of_lt hple (ihgt x hx)
      · intro x hx
        rcases List.mem_cons.mp hx with rfl | hx
        · rw [hper]
          exact hlt
        · exact lt_of_le_of_lt hla (ihgt x hx)
    · have hfa : (fun r => if r.logged then some r.percent else none)
          (progress_callback (some l) c) = none := by
        rw [Bool.not_eq_true] at hlog
        simp [hlog]
      simp only [relayTrace, List.filterMap_cons, hfa]
      exact ⟨ihp, fun x hx => lt_of_le_of_lt hla (ihgt x hx)⟩

/-- The min conjunct holds exactly when the configured lower threshold, if
present, is satisfied. -/
theorem minCond_true_iff (d : Dict) (v : ℚ) :
    minCond d v = true ↔ ∀ m, lookupKey d "min" = some m → m ≤ v := by
  unfold minCond
  rcases h : lookupKey d "min" with _ | m <;> simp [h]

/-- The max conjunct holds exactly when the configured upper threshold, if
present, is satisfied. -/
theorem maxCond_true_iff (d : Dict) (v : ℚ) :
    maxCond d v = true ↔ ∀ m, lookupKey d "max" = some m → v ≤ m := by
  unfold maxCond
  rcases h : lookupKey d "max" with _ | m <;> simp [h]

/-! ## Claim C1 -/

/-- C1 counterexample: the claim asserts decode(255,255,255) = 65278.996...,
but the code yields 32767.99609375 = 8388607/256, strictly below 65278. -/
theorem decode_255_cex :
    decodeElevation 255 255 255 = 8388607 / 256 ∧ decodeElevation 255 255 255 < 65278 := by
  constructor <;> norm_num [decodeElevation]

/-- C1 (amended): for every byte triple (R,G,B) with each component in
[0,255], the decoder computes R*256 + G + B/256 - 32768; in particular
decode(128,0,0) = 0, decode(0,0,0) = -32768, and decode(255,255,255) =
32767.99609375 (not 65278.996... as the claim states). -/
theorem decode_correct (r g b : ℚ)
    (hr0 : 0 ≤ r) (hr1 : r ≤ 255) (hg0 : 0 ≤ g) (hg1 : g ≤ 255)
    (hb0 : 0 ≤ b) (hb1 : b ≤ 255) :
    decodeElevation r g b = decodeSpecFormula r g b ∧
    decodeElevation 128 0 0 = 0 ∧
    decodeElevation 0 0 0 = -32768 ∧
    decodeElevation 255 255 255 = 8388607 / 256 := by
  refine ⟨rfl, ?_, ?_, ?_⟩ <;> norm_num [decodeElevation]

/-- Witness for decode_correct at the in-range triple (128, 0, 0). -/
theorem decode_correct_witness : decodeElevation 128 0 0 = 0 :=
  (decode_correct 128 0 0 (by norm_num) (by norm_num) (by norm_num)
    (by norm_num) (by norm_num) (by norm_num)).2.1

/-! ## Claim C2 -/

/-- C2: if every warp attempt raises a transient-network-classified error,
the acquisition loop makes exactly 5 attempts with 4 inter-attempt delays
and surfaces the error at the max-retries raise site; if the first attempt
raises a non-transient error, exactly 1 attempt is made, no delay is slept,
and the error propagates immediately. -/
theorem acquisition_retry_bound (outcomes : Nat → WarpOutcome) :
    ((∀ i, i < 5 → ∃ m, outcomes i = WarpOutcome.err m ∧ isTransient m = true) →
      (acquire outcomes).attemptsMade = 5 ∧ (acquire outcomes).delays = 4 ∧
      ∃ m, (acquire outcomes).outcome = Except.error (PyErr.maxRetriesExceeded m)) ∧
    (∀ m, outcomes 0 = WarpOutcome.err m → isTransient m = false →
      acquire outcomes = ⟨1, 0, Except.error (PyErr.propagated m)⟩) := by
  constructor
  · intro h
    obtain ⟨m0, e0, t0⟩ := h 0 (by norm_num)
    obtain ⟨m1, e1, t1⟩ := h 1 (by norm_num)
    obtain ⟨m2, e2, t2⟩ := h 2 (by norm_num)
    obtain ⟨m3, e3, t3⟩ := h 3 (by norm_num)
    obtain ⟨m4, e4, t4⟩ := h 4 (by norm_num)
    refine ⟨?_, ?_, ⟨m4, ?_⟩⟩ <;>
      simp [acquire, acquireGo, e0, t0, e1, t1, e2, t2, e3, t3, e4, t4]
  · intro m hm ht
    simp [acquire, acquireGo, hm, ht]

/-- Witness for acquisition_retry_bound: a source that always fails with a
host-resolution error yields 5 attempts, 4 delays and the max-retries
error surface. -/
theorem acquisition_retry_bound_witness :
    (acquire (fun _ => WarpOutcome.err "Could not resolve host")).attemptsMade = 5 ∧
    (acquire (fun _ => WarpOutcome.err "Could not resolve host")).delays = 4 ∧
    ∃ m, (acquire (fun _ => WarpOutcome.err "Could not resolve host")).outcome =
      Except.error (PyErr.maxRetriesExceeded m) :=
  (acquisition_retry_bound (fun _ => WarpOutcome.err "Could not resolve host")).1
    (fun i _ => ⟨"Could not resolve host", rfl, by decide⟩)

/-! ## Claim C3 -/

/-- C3 counterexample: with output out.gpkg and no mask configured, the
export decision of _execute_process is the vector branch, not a
ProcessingError; no error is signaled. -/
theorem gpkg_without_mask_cex :
    exportBranch "out.gpkg" none = ExportAction.vectorExport ∧
    exportBranch "out.gpkg" none ≠ ExportAction.processingError := by
  constructor <;> decide

/-- C3 (amended): for every configuration whose output path ends in .gpkg
case-insensitively and whose mask field is absent, the Output Exporter
proceeds with vector export of the continuous grid; no ProcessingError is
signaled and the grid is silently coerced by the byte-typed in-memory
raster of _save_as_vector. -/
theorem gpkg_without_mask_vector (output_name : String)
    (h : pyLowerEndsWith output_name ".gpkg".toList = true) :
    exportBranch output_name none = ExportAction.vectorExport := by
  unfold exportBranch
  rw [h]
  simp

/-- Witness for gpkg_without_mask_vector at output out.gpkg. -/
theorem gpkg_without_mask_vector_witness :
    exportBranch "out.gpkg" none = ExportAction.vectorExport :=
  gpkg_without_mask_vector "out.gpkg" (by decide)

/-! ## Claim C4 -/

/-- C4 code bug: every configuration routed to the raster branch crashes,
because _execute_process line 241 passes the keyword argument dtype to
_save_raster, whose parameter list (line 141) has no such parameter: the
call raises TypeError and no raster is written, with or without a mask.
Moreover _save_raster itself hard-codes GDT_Float32 at line 143, so the
documented Byte-when-masked rule could not be honored even if the call
succeeded. -/
theorem raster_export_type_error :
    rasterExportCall none = Except.error (PyErr.typeError "unexpected keyword argument dtype") ∧
    rasterExportCall (some [("min", 1)]) =
      Except.error (PyErr.typeError "unexpected keyword argument dtype") ∧
    save_raster_pixel_type = GDALDataType.GDT_Float32 :=
  ⟨rfl, rfl, rfl⟩

/-! ## Claim C5 -/

/-- C5: a pixel of the mask grid is 1 exactly when the value meets every
configured threshold and differs from the nodata sentinel -9999; a pixel
equal to -9999 is always 0; every pixel is 0 or 1 and fits in an unsigned
byte. -/
theorem mask_eval_pixel_correct (mask_cfg : Dict) (v : ℚ) :
    (maskEvalPixel mask_cfg v = 1 ↔
      ((∀ m, lookupKey mask_cfg "min" = some m → m ≤ v) ∧
       (∀ m, lookupKey mask_cfg "max" = some m → v ≤ m) ∧ v ≠ -9999)) ∧
    (v = -9999 → maskEvalPixel mask_cfg v = 0) ∧
    (maskEvalPixel mask_cfg v = 0 ∨ maskEvalPixel mask_cfg v = 1) ∧
    maskEvalPixel mask_cfg v < 256 := by
  refine ⟨?_, ?_, ?_, ?_⟩
  · unfold maskEvalPixel
    rw [← minCond_true_iff, ← maxCond_true_iff]
    split
    · rename_i hc
      simp only [Bool.and_eq_true, decide_eq_true_eq] at hc
      simp [hc.1.1, hc.1.2, hc.2]
    · rename_i hc
      simp only [Bool.and_eq_true, decide_eq_true_eq, not_and] at hc
      constructor
      · intro h
        exact absurd h (by norm_num)
      · rintro ⟨h1, h2, h3⟩
        exact (hc ⟨h1, h2⟩ h3).elim
  · intro h
    subst h
    simp [maskEvalPixel]
  · unfold maskEvalPixel
    split <;> simp
  · unfold maskEvalPixel
    split <;> norm_num

/-- Witness for mask_eval_pixel_correct: the nodata sentinel maps to 0
even when the thresholds match. -/
theorem mask_eval_pixel_correct_witness : maskEvalPixel [("min", -10000)] (-9999) = 0 :=
  (mask_eval_pixel_correct [("min", -10000)] (-9999)).2.1 rfl

/-! ## Claim C6 -/

/-- C6: for a fixed pixel value and fixed min threshold, the mask computed
with both min and max configured is pixelwise at most the mask computed
with only min configured. -/
theorem mask_monotonic (mn mx v : ℚ) :
    maskEvalPixel [("min", mn), ("max", mx)] v ≤ maskEvalPixel [("min", mn)] v := by
  have h1 : lookupKey [("min", mn), ("max", mx)] "min" = some mn := rfl
  have h2 : lookupKey [("min", mn), ("max", mx)] "max" = some mx := rfl
  have h3 : lookupKey [("min", mn)] "min" = some mn := rfl
  have h4 : lookupKey [("min", mn)] "max" = none := rfl
  simp only [maskEvalPixel, minCond, maxCond, h1, h2, h3, h4]
  by_cases hm : mn ≤ v <;> by_cases hx : v ≤ mx <;> by_cases hn : v = -9999 <;>
    simp [hm, hx, hn]

/-! ## Claim C7 -/

/-- C7: over any run, the invocation with completion fraction c that
follows the invocations of pre logs exactly when its whole percent
strictly exceeds every whole percent seen previously and is a multiple of
5, and it returns the affirmative continuation signal 1. -/
theorem progress_relay_log_iff (pre : List ℚ) (c : ℚ) (post : List ℚ) (hc : 0 ≤ c) :
    ∃ r rest, relayTrace none (pre ++ c :: post) = relayTrace none pre ++ r :: rest ∧
      (r.logged = true ↔
        ((∀ q ∈ percents pre, q < pyInt (c * 100)) ∧ pyInt (c * 100) % 5 = 0)) ∧
      r.ret = 1 := by
  refine ⟨progress_callback (some ((percents pre).foldl max (-1))) c,
    relayTrace (some (progress_callback (some ((percents pre).foldl max (-1))) c).lastAfter)
      post, ?_, ?_, pc_ret _ _⟩
  · rw [relayTrace_append pre none (c :: post)]
    simp [relayTrace]
  · rw [pc_logged]
    simp only [Option.getD_some]
    have hneg : (-1 : ℤ) < pyInt (c * 100) := by
      have := pyInt_nonneg (c * 100) (mul_nonneg hc (by norm_num))
      omega
    constructor
    · intro hb
      have hb2 := (Bool.and_eq_true _ _).mp hb
      have h1 := of_decide_eq_true hb2.1
      have h2 : pyInt (c * 100) % 5 = 0 := by
        have := hb2.2
        exact beq_iff_eq.mp this
      rw [foldl_max_lt_iff] at h1
      exact ⟨h1.2, h2⟩
    · rintro ⟨hall, hmod⟩
      have h1 : (percents pre).foldl max (-1) < pyInt (c * 100) := by
        rw [foldl_max_lt_iff]
        exact ⟨hneg, hall⟩
      simp [h1, hmod]

/-- Witness for progress_relay_log_iff: the single invocation at
completion 1 after an empty history. -/
theorem progress_relay_log_iff_witness :
    ∃ r rest, relayTrace none ([] ++ (1 : ℚ) :: []) = relayTrace none [] ++ r :: rest ∧
      (r.logged = true ↔
        ((∀ q ∈ percents [], q < pyInt ((1 : ℚ) * 100)) ∧ pyInt ((1 : ℚ) * 100) % 5 = 0)) ∧
      r.ret = 1 :=
  progress_relay_log_iff [] 1 [] (by norm_num)

/-! ## Claim C8 -/

/-- C8: when source is absent from the configuration, the descriptor
builder fails (the KeyError on the source field, the realization of the
spec class ConfigurationError) and produces no descriptor artifact. -/
theorem vrt_missing_source (config : StrDict) (h : lookupStr config "source" = none) :
    generate_vrt config = Except.error (PyErr.keyError "source") ∧
    ∀ a, generate_vrt config ≠ Except.ok a := by
  unfold generate_vrt
  rw [h]
  exact ⟨rfl, fun a => by simp⟩

/-- Witness for vrt_missing_source at the empty configuration. -/
theorem vrt_missing_source_witness :
    generate_vrt [] = Except.error (PyErr.keyError "source") ∧
    ∀ a, generate_vrt [] ≠ Except.ok a :=
  vrt_missing_source [] rfl

/-! ## Claim C9 -/

/-- C9: the relay state is initialized once and never reset within a run:
the sequence of logged percents over any run is strictly increasing, and
once an invocation with completion 1 (percent 100) has occurred, the later
polygon-extraction invocations on the same relay, whose completion
fractions are at most 1, never log. -/
theorem progress_relay_monotone (pre post : List ℚ) (hpost : ∀ x ∈ post, x ≤ 1) :
    List.Pairwise (fun a b => a < b) (loggedPercents (pre ++ 1 :: post)) ∧
    relayTrace none (pre ++ 1 :: post) =
      relayTrace none (pre ++ [1]) ++
        relayTrace (some ((percents (pre ++ [1])).foldl max (-1))) post ∧
    ∀ r ∈ relayTrace (some ((percents (pre ++ [1])).foldl max (-1))) post,
      r.logged = false := by
  have h100 : pyInt ((1 : ℚ) * 100) = 100 := by
    norm_num [pyInt]
  have hM : (100 : ℤ) ≤ (percents (pre ++ [1])).foldl max (-1) := by
    simp only [percents, List.map_append, List.map_cons, List.map_nil, List.foldl_append,
      List.foldl_cons, List.foldl_nil, h100]
    exact le_max_right _ _
  refine ⟨?_, ?_, ?_⟩
  · unfold loggedPercents
    rw [relayTrace_init]
    exact (relay_logged_sorted (pre ++ 1 :: post) (-1)).1
  · have hsplit : pre ++ 1 :: post = (pre ++ [1]) ++ post := by
      simp
    rw [hsplit, relayTrace_append (pre ++ [1]) none post]
    simp only [Option.getD_none]
  · exact relay_no_log_after post _ hM hpost

/-- Witness for progress_relay_monotone: a run that reports 100 percent
and is then called again at completion one half. -/
theorem progress_relay_monotone_witness :
    List.Pairwise (fun a b => a < b) (loggedPercents ([] ++ 1 :: [(1 : ℚ) / 2])) ∧
    relayTrace none ([] ++ 1 :: [(1 : ℚ) / 2]) =
      relayTrace none ([] ++ [1]) ++
        relayTrace (some ((percents ([] ++ [1])).foldl max (-1))) [(1 : ℚ) / 2] ∧
    ∀ r ∈ relayTrace (some ((percents ([] ++ [1])).foldl max (-1))) [(1 : ℚ) / 2],
      r.logged = false :=
  progress_relay_monotone [] [(1 : ℚ) / 2] (by norm_num)

/-! ## Claim C10 -/

/-- C10: for every loaded configuration carrying bounds and resolution
values, the pipeline passes both to the warp call unchanged and raises no
error of its own, even when the resolution is nonpositive or a bounds
axis is inverted: no validation exists. -/
theorem no_bounds_resolution_validation (b : List ℚ) (r : ℚ) :
    buildWarpArgs (some b) (some r) =
      Except.ok { outputBounds := b, outputBoundsSRS := "EPSG:4326",
                  xRes := r, yRes := r, dstSRS := "EPSG:3857" } :=
  rfl
